import Mathlib

/-!
Verification of the `CustomCursor` controller (src/src/CustomCursor.js).

The controller state and its per-tick update are embedded shallowly:
geometry and interpolation are modelled over an arbitrary linear ordered
field (instantiated at `ℚ` for executable checks and at `ℝ` for the
exponential-lag analysis), JS `parseInt` is modelled on strings, and a JS
number that may be `NaN` is modelled as `Option`.
-/

namespace CustomCursor

/-- A JS number obtained from `Number(element.getAttribute(...))`, used with
the fallback idiom `Number(attr) || default`: `none` models `NaN`; an absent
attribute yields `some 0` because `Number(null) = 0` in JS.  Falsy values
(`NaN` and `0`) select the default. -/
def jsOrDefault {α : Type} [LinearOrderedField α] (v : Option α) (d : α) : α :=
  match v with
  | none => d
  | some x => if x = 0 then d else x

/-- Longest leading run of decimal digits of a character list
(the digits consumed by JS `parseInt`). -/
def takeDigits : List Char → List Char
  | [] => []
  | c :: cs => if c.isDigit then c :: takeDigits cs else []

/-- Accumulate a digit list into a natural number, most significant first. -/
def digitsToNat : List Char → Nat → Nat
  | [], acc => acc
  | c :: cs, acc => digitsToNat cs (acc * 10 + (c.toNat - '0'.toNat))

/-- Split an optional leading sign character off a character list,
returning the sign as `1` or `-1`. -/
def signSplit : List Char → Int × List Char
  | [] => (1, [])
  | c :: t => if c = '-' then (-1, t) else if c = '+' then (1, t) else (1, c :: t)

/-- JS `parseInt(s, 10)`: skip leading whitespace, read an optional sign and
then the longest run of decimal digits, ignoring any trailing characters
(so `"9999px"` parses to `9999`); `none` models the `NaN` result when no
digit is found. -/
def jsParseInt (s : String) : Option Int :=
  let cs := s.toList.dropWhile (fun c => c = ' ' ∨ c = '\t' ∨ c = '\n')
  let sr := signSplit cs
  let ds := takeDigits sr.2
  if ds.isEmpty then none
  else some (sr.1 * (digitsToNat ds 0 : Int))

/-- `_getBorderRadius`: parse the computed border-radius string; an
unparsable value resolves to 0; a parsed value exceeding the smaller of the
element's offset dimensions, or the `rounded-full` marker class, resolves to
that smaller dimension; otherwise the parsed value is returned. -/
def getBorderRadius (radiusStr : String) (offsetWidth offsetHeight : Int)
    (roundedFull : Bool) : Int :=
  match jsParseInt radiusStr with
  | none => 0
  | some radius =>
    if radius > min offsetWidth offsetHeight ∨ roundedFull = true then
      min offsetWidth offsetHeight
    else radius

/-- A point in viewport coordinates. -/
structure Point (α : Type) where
  x : α
  y : α
deriving DecidableEq

/-- A live bounding box as returned by `getBoundingClientRect`. -/
structure Rect (α : Type) where
  left : α
  top : α
  width : α
  height : α
deriving DecidableEq

/-- `rect.right = rect.left + rect.width` (DOM invariant). -/
def Rect.right {α : Type} [LinearOrderedField α] (r : Rect α) : α :=
  r.left + r.width

/-- `rect.bottom = rect.top + rect.height` (DOM invariant). -/
def Rect.bottom {α : Type} [LinearOrderedField α] (r : Rect α) : α :=
  r.top + r.height

/-- A hoverable element as observed on one tick: `id` stands for the
element's object identity within the fixed registry, `rect` is its live
bounding box, and the three attribute fields hold
`Number(getAttribute(...))` (`none` = `NaN`, absent attribute = `some 0`).
The remaining fields feed `_getBorderRadius`. -/
structure TargetInfo (α : Type) where
  id : Nat
  rect : Rect α
  padding : Option α
  scaleAttr : Option α
  parallax : Option α
  radiusStr : String
  offsetWidth : Int
  offsetHeight : Int
  roundedFull : Bool
deriving DecidableEq

/-- `this._getBorderRadius(element)` for a registry element. -/
def TargetInfo.borderRadius {α : Type} (e : TargetInfo α) : Int :=
  getBorderRadius e.radiusStr e.offsetWidth e.offsetHeight e.roundedFull

/-- The numeric fields of `CustomCursor.CONFIG` (shape and press-scale
defaults, speeds and the leaving threshold). -/
structure Config (α : Type) where
  DEFAULT_PADDING : α
  DEFAULT_CLICK_SCALE : α
  DEFAULT_HOVER_CLICK_SCALE : α
  FOLLOWER_SPEED : α
  TRANSITION_SPEED : α
  LEAVING_THRESHOLD : α

/-- The default `CONFIG` values over `ℚ`:
padding 15, click scale 0.9, hover click scale 0.98, follower speed 138,
transition speed 31, leaving threshold 0.5. -/
def CONFIG : Config ℚ :=
  ⟨15, 9 / 10, 49 / 50, 138, 31, 1 / 2⟩

/-- `this.cursorDefaults`: the cursor element's own size, radius and the
default click scale, captured once at `_init`. -/
structure CursorDefaults (α : Type) where
  width : α
  height : α
  borderRadius : α
  scale : α
deriving DecidableEq

/-- `this.cursorState`: the rendered box of the cursor. -/
structure CursorState (α : Type) where
  x : α
  y : α
  width : α
  height : α
  borderRadius : α
  scale : α
deriving DecidableEq

/-- The controller's mutable fields touched by the tick loop and the input
handlers (z-order bookkeeping is modelled separately). -/
structure CtrlState (α : Type) where
  mouse : Point α
  follower : Point α
  cursorState : CursorState α
  scale : α
  previousHovered : Option Nat
  isLeaving : Bool
  currentLag : α
deriving DecidableEq

/-- `_updateMousePosition`: overwrite the raw pointer position. -/
def updateMousePosition {α : Type} (s : CtrlState α) (px py : α) : CtrlState α :=
  { s with mouse := ⟨px, py⟩ }

/-- `_handleMouseDown`: copy the current hover-state scale into the applied
press scale. -/
def handleMouseDown {α : Type} (s : CtrlState α) : CtrlState α :=
  { s with scale := s.cursorState.scale }

/-- `_handleMouseUp`: reset the applied press scale to 1. -/
def handleMouseUp {α : Type} [LinearOrderedField α] (s : CtrlState α) : CtrlState α :=
  { s with scale := 1 }

/-- The four-inequality overlap test of `_findHoveredElement`, between the
follower point offset by the default cursor's half extents and the
element's live box. -/
def hoverPred {α : Type} [LinearOrderedField α] (defaults : CursorDefaults α)
    (follower : Point α) (e : TargetInfo α) : Bool :=
  let offX := defaults.width / 2
  let offY := defaults.height / 2
  decide (follower.x + offX ≥ e.rect.left ∧ follower.y + offY ≥ e.rect.top ∧
    follower.x - offX ≤ e.rect.right ∧ follower.y - offY ≤ e.rect.bottom)

/-- `_findHoveredElement`: first registry element whose box overlaps the
follower's default-sized square. -/
def findHoveredElement {α : Type} [LinearOrderedField α] (defaults : CursorDefaults α)
    (follower : Point α) (items : List (TargetInfo α)) : Option (TargetInfo α) :=
  items.find? (hoverPred defaults follower)

/-- `_updateFollower`: exponential smoothing of the follower toward the
raw pointer. -/
def updateFollower {α : Type} [LinearOrderedField α] (s : CtrlState α)
    (followerLag : α) : CtrlState α :=
  { s with follower :=
      ⟨s.follower.x + (s.mouse.x - s.follower.x) * followerLag,
       s.follower.y + (s.mouse.y - s.follower.y) * followerLag⟩ }

/-- `_manageHoverState` (without the z-order side effects, which are
modelled separately): on a change of hovered element, set `isLeaving` when a
target was vacated, clear it when a target is entered, and record the new
hovered element. -/
def manageHoverState {α : Type} (s : CtrlState α) (hovered : Option Nat) : CtrlState α :=
  if hovered = s.previousHovered then s
  else
    { s with
      isLeaving :=
        if hovered.isSome then false
        else if s.previousHovered.isSome then true
        else s.isLeaving,
      previousHovered := hovered }

/-- The target box computed by `_getTargetProperties`. -/
structure TargetProps (α : Type) where
  targetX : α
  targetY : α
  targetWidth : α
  targetHeight : α
  targetRadius : α
deriving DecidableEq

/-- `_getTargetProperties`: the target box for the current hover state,
together with the new `cursorState.scale` that the method assigns
directly. -/
def getTargetProperties {α : Type} [LinearOrderedField α] (cfg : Config α)
    (defaults : CursorDefaults α) (follower : Point α)
    (hovered : Option (TargetInfo α)) : TargetProps α × α :=
  match hovered with
  | some e =>
    let padding := jsOrDefault e.padding cfg.DEFAULT_PADDING
    (⟨e.rect.left + e.rect.width / 2, e.rect.top + e.rect.height / 2,
      e.rect.width + padding, e.rect.height + padding, (e.borderRadius : α)⟩,
     jsOrDefault e.scaleAttr cfg.DEFAULT_HOVER_CLICK_SCALE)
  | none =>
    (⟨follower.x, follower.y, defaults.width, defaults.height, defaults.borderRadius⟩,
     defaults.scale)

/-- The value of `isLeaving` after the convergence check at the top of
`_updateCursorStyle`: leaving persists until both the width gap and the
height gap to the current target box are below the leaving threshold. -/
def leavingAfterCheck {α : Type} [LinearOrderedField α] (cfg : Config α)
    (s : CtrlState α) (tp : TargetProps α) : Bool :=
  if s.isLeaving = true then
    if |tp.targetWidth - s.cursorState.width| < cfg.LEAVING_THRESHOLD ∧
        |tp.targetHeight - s.cursorState.height| < cfg.LEAVING_THRESHOLD then
      false
    else s.isLeaving
  else s.isLeaving

/-- The inline styles written to the cursor element at the end of a tick. -/
structure AppliedStyle (α : Type) where
  left : α
  top : α
  width : α
  height : α
  borderRadius : α
  transformScale : α
deriving DecidableEq

/-- `_updateCursorStyle`: run the leaving convergence check, pick the target
lag, smooth the auxiliary current lag, interpolate the visual box toward the
target box, and emit the styles applied to the cursor element. -/
def updateCursorStyle {α : Type} [LinearOrderedField α] (cfg : Config α)
    (defaults : CursorDefaults α) (s : CtrlState α)
    (hovered : Option (TargetInfo α)) (followerLag transitionLag : α) :
    CtrlState α × AppliedStyle α :=
  let gp := getTargetProperties cfg defaults s.follower hovered
  let tp := gp.1
  let isLeaving' := leavingAfterCheck cfg s tp
  let targetLag := if hovered.isSome || isLeaving' then transitionLag else followerLag
  let currentLag' :=
    if hovered.isSome then targetLag
    else s.currentLag + (targetLag - s.currentLag) * (1 / 10)
  let cs := s.cursorState
  let x' := cs.x + (tp.targetX - cs.x) * currentLag'
  let y' := cs.y + (tp.targetY - cs.y) * currentLag'
  let w' := cs.width + (tp.targetWidth - cs.width) * transitionLag
  let h' := cs.height + (tp.targetHeight - cs.height) * transitionLag
  let r' := cs.borderRadius + (tp.targetRadius - cs.borderRadius) * transitionLag
  ({ s with
      isLeaving := isLeaving',
      currentLag := currentLag',
      cursorState := ⟨x', y', w', h', r', gp.2⟩ },
   ⟨x', y', w', h', r', s.scale⟩)

/-- One iteration of `_loop` after the two lags have been computed from the
frame delta: hit-test with the pre-update follower, advance the follower,
update the hover state, and update the cursor style.  The parallax side
effect has no influence on the controller state and is modelled by
`parallaxTranslation` separately. -/
def tick {α : Type} [LinearOrderedField α] (cfg : Config α)
    (defaults : CursorDefaults α) (s : CtrlState α)
    (items : List (TargetInfo α)) (followerLag transitionLag : α) :
    CtrlState α × AppliedStyle α :=
  let hovered := findHoveredElement defaults s.follower items
  let s1 := updateFollower s followerLag
  let s2 := manageHoverState s1 (hovered.map TargetInfo.id)
  updateCursorStyle cfg defaults s2 hovered followerLag transitionLag

/-- The translation `_applyParallaxEffect` writes to one registry element on
one tick, as a pair of pixel offsets. -/
def parallaxTranslation {α : Type} [LinearOrderedField α] (mouse : Point α)
    (hovered : Option Nat) (e : TargetInfo α) : α × α :=
  let parallax := jsOrDefault e.parallax 0
  if parallax > 0 ∧ hovered = some e.id then
    (((mouse.x - e.rect.left) / e.rect.width - 1 / 2) * parallax,
     ((mouse.y - e.rect.top) / e.rect.height - 1 / 2) * parallax)
  else (0, 0)

/-- `_applyParallaxEffect` over the whole registry, in registry order. -/
def applyParallaxEffect {α : Type} [LinearOrderedField α] (mouse : Point α)
    (hovered : Option Nat) (items : List (TargetInfo α)) : List (α × α) :=
  items.map (parallaxTranslation mouse hovered)

/-- A per-tick input for the loop once the hit test, lags and live geometry
are taken together: the registry snapshot as observed on that tick, and the
two lags derived from the frame delta. -/
structure TickInput (α : Type) where
  items : List (TargetInfo α)
  followerLag : α
  transitionLag : α

/-- Iterated ticks over a list of per-tick inputs (raw pointer fixed, no
press or release events in between). -/
def tickSeq {α : Type} [LinearOrderedField α] (cfg : Config α)
    (defaults : CursorDefaults α) : CtrlState α → List (TickInput α) → CtrlState α
  | s, [] => s
  | s, i :: rest =>
    tickSeq cfg defaults (tick cfg defaults s i.items i.followerLag i.transitionLag).1 rest

/-- Iterated `_updateFollower` with the raw pointer held constant. -/
def followerIter {α : Type} [LinearOrderedField α] (s : CtrlState α) (lag : α) :
    Nat → CtrlState α
  | 0 => s
  | n + 1 => updateFollower (followerIter s lag n) lag

/-- `_init` as far as the tick-visible state is concerned: pointer and
follower centered in the viewport, visual box at the cursor element's own
geometry, press scale 1, no hover history. -/
def initState {α : Type} [LinearOrderedField α] (innerWidth innerHeight : α)
    (defaults : CursorDefaults α) : CtrlState α :=
  { mouse := ⟨innerWidth / 2, innerHeight / 2⟩,
    follower := ⟨innerWidth / 2, innerHeight / 2⟩,
    cursorState := ⟨innerWidth / 2, innerHeight / 2, defaults.width, defaults.height,
      defaults.borderRadius, defaults.scale⟩,
    scale := 1,
    previousHovered := none,
    isLeaving := false,
    currentLag := 0 }

/-- The observable outcome of the constructor: how many advisory
diagnostics were emitted, whether a controller state was initialized, and
whether listeners and the frame loop were started. -/
structure InitOutcome (α : Type) where
  warnings : Nat
  controller : Option (CtrlState α)
  listenersAttached : Bool
  loopStarted : Bool

/-- The constructor: when the cursor element is missing or the runtime is
touch-capable, warn once and do nothing else; otherwise capture the cursor
defaults from the cursor element and run `_init`. -/
def constructorModel {α : Type} [LinearOrderedField α] (cfg : Config α)
    (cursorFound touchCapable : Bool) (innerWidth innerHeight : α)
    (cursorOffsetWidth cursorOffsetHeight : Int) (cursorRadiusStr : String)
    (cursorRoundedFull : Bool) : InitOutcome α :=
  if !cursorFound || touchCapable then
    ⟨1, none, false, false⟩
  else
    let defaults : CursorDefaults α :=
      ⟨(cursorOffsetWidth : α), (cursorOffsetHeight : α),
       ((getBorderRadius cursorRadiusStr cursorOffsetWidth cursorOffsetHeight
          cursorRoundedFull : Int) : α),
       cfg.DEFAULT_CLICK_SCALE⟩
    ⟨0, some (initState innerWidth innerHeight defaults), true, true⟩

/-!
Z-order side effects of `_manageHoverState` / `_manageZIndex`, modelled over
the host elements' inline `style.zIndex` (an assignment of the empty string
removes the inline value, so the inline state is an `Option String`) and
their stylesheet-computed z-index.
-/

/-- An observable z-order side effect on a registry element. -/
inductive ZEvent where
  | elevate (id : Nat) (captured : String)
  | restore (id : Nat) (value : String)
deriving DecidableEq

/-- Host-side facts the z-order logic reads: each element's computed
z-index in the absence of an inline override, and the cursor element's
parsed z-index. -/
structure ZEnv where
  base : Nat → String
  cursorZ : Int

/-- The z-order bookkeeping state: each element's inline `style.zIndex`,
the active target, and the captured pre-hover z-index. -/
structure ZState where
  inlineZ : Nat → Option String
  previousHovered : Option Nat
  previousHoveredZIndex : String

/-- `getComputedStyle(element).zIndex`: the inline value when present,
otherwise the stylesheet value. -/
def ZEnv.computed (env : ZEnv) (zs : ZState) (t : Nat) : String :=
  (zs.inlineZ t).getD (env.base t)

/-- `element.style.zIndex = v`: the empty string removes the inline value. -/
def writeZ (zs : ZState) (t : Nat) (v : String) : ZState :=
  { zs with inlineZ := fun u => if u = t then (if v = "" then none else some v) else zs.inlineZ u }

/-- `_manageZIndex`: restore the previous target's inline z-index to the
captured value, then either capture and elevate the new target (to the
cursor's z-index plus one) or clear the captured value. -/
def manageZIndex (env : ZEnv) (zs : ZState) (hovered : Option Nat) :
    ZState × List ZEvent :=
  let r :=
    match zs.previousHovered with
    | some p =>
      (writeZ zs p zs.previousHoveredZIndex,
       [ZEvent.restore p zs.previousHoveredZIndex])
    | none => (zs, [])
  match hovered with
  | some h =>
    let captured := ZEnv.computed env r.1 h
    ({ writeZ r.1 h (toString (env.cursorZ + 1)) with previousHoveredZIndex := captured },
     r.2 ++ [ZEvent.elevate h captured])
  | none => ({ r.1 with previousHoveredZIndex := "" }, r.2)

/-- The z-order portion of `_manageHoverState`: `_manageZIndex` runs only
when the hovered element changed, and `previousHovered` is updated
afterwards. -/
def zHoverStep (env : ZEnv) (zs : ZState) (hovered : Option Nat) :
    ZState × List ZEvent :=
  if hovered = zs.previousHovered then (zs, [])
  else
    let r := manageZIndex env zs hovered
    ({ r.1 with previousHovered := hovered }, r.2)

/-- Run the z-order logic over a whole trace of per-tick hit-test results,
collecting the emitted side effects. -/
def zRun (env : ZEnv) : ZState → List (Option Nat) → ZState × List ZEvent
  | zs, [] => (zs, [])
  | zs, h :: rest =>
    let r1 := zHoverStep env zs h
    let r2 := zRun env r1.1 rest
    (r2.1, r1.2 ++ r2.2)

/-- An event list made of matched elevation/restoration pairs, each
restoration writing back the value captured by its elevation. -/
def pairEvents : List (Nat × String) → List ZEvent
  | [] => []
  | (t, v) :: ps => ZEvent.elevate t v :: ZEvent.restore t v :: pairEvents ps

/-- The event still awaiting its matching restoration: the elevation of the
currently active target, whose pre-hover value under the assignment `c` was
captured when it was elevated. -/
def openEv (c : Nat → String) : Option Nat → List ZEvent
  | none => []
  | some p => [ZEvent.elevate p (c p)]

/-- Well-formedness of the z-order state relative to the assignment `c` of
original computed z-order values: the active target's pre-hover value is
the captured one, and every inactive element still shows its original
computed value (with no empty-string inline residue). -/
def ZWF (env : ZEnv) (c : Nat → String) (zs : ZState) : Prop :=
  ∀ t, (zs.previousHovered = some t → zs.previousHoveredZIndex = c t) ∧
       (zs.previousHovered ≠ some t →
         ZEnv.computed env zs t = c t ∧ zs.inlineZ t ≠ some "")

/-! ### Concrete instances used by witnesses and the counterexample -/

/-- A concrete cursor-defaults record: a 30×30 cursor box with radius 15. -/
def cDefaults : CursorDefaults ℚ := ⟨30, 30, 15, 9 / 10⟩

/-- A concrete controller state mid-leaving: the box is still 100×100, far
from the 30×30 default box, with no hovered target recorded. -/
def c1State : CtrlState ℚ :=
  { mouse := ⟨0, 0⟩, follower := ⟨0, 0⟩,
    cursorState := ⟨0, 0, 100, 100, 0, 9 / 10⟩,
    scale := 1, previousHovered := none, isLeaving := true, currentLag := 0 }

/-- A concrete controller state that is hovering target 5 on the previous
tick, about to vacate it. -/
def c2State : CtrlState ℚ :=
  { mouse := ⟨0, 0⟩, follower := ⟨0, 0⟩,
    cursorState := ⟨0, 0, 100, 100, 0, 9 / 10⟩,
    scale := 1, previousHovered := some 5, isLeaving := false, currentLag := 2 / 5 }

/-- A concrete 10×10 target centered at the origin, with explicit zero
padding and scale attributes and parallax strength 2. -/
def cTarget : TargetInfo ℚ :=
  { id := 0, rect := ⟨-5, -5, 10, 10⟩, padding := some 0, scaleAttr := some 0,
    parallax := some 2, radiusStr := "4px", offsetWidth := 10, offsetHeight := 10,
    roundedFull := false }

/-- A second concrete target, overlapping `cTarget`, registered later. -/
def cTarget2 : TargetInfo ℚ :=
  { id := 1, rect := ⟨-6, -6, 12, 12⟩, padding := some 0, scaleAttr := some 0,
    parallax := some 0, radiusStr := "0px", offsetWidth := 12, offsetHeight := 12,
    roundedFull := false }

/-- The property claimed for the per-tick lags and interpolations, over `ℝ`
with the lags derived from a frame delta `dt`: both computed lags and the
smoothed current lag lie in `[0, 1]`; the visual box's width, height and
radius each move monotonically toward (never past, never away from) the
current target box; and with the pointer held constant the follower's gap
shrinks by the factor `(1 - followerLag)` per tick, dropping below any
positive epsilon after sufficiently many ticks. -/
def C4Prop (cfg : Config ℝ) (defaults : CursorDefaults ℝ) (s : CtrlState ℝ)
    (items : List (TargetInfo ℝ)) (dt followerLag transitionLag : ℝ) : Prop :=
  let s' := (tick cfg defaults s items followerLag transitionLag).1
  let tp := (getTargetProperties cfg defaults (updateFollower s followerLag).follower
      (findHoveredElement defaults s.follower items)).1
  (0 ≤ followerLag ∧ followerLag ≤ 1) ∧
  (0 ≤ transitionLag ∧ transitionLag ≤ 1) ∧
  (0 ≤ s'.currentLag ∧ s'.currentLag ≤ 1) ∧
  ((s.cursorState.width ≤ tp.targetWidth →
      s.cursorState.width ≤ s'.cursorState.width ∧
      s'.cursorState.width ≤ tp.targetWidth) ∧
   (tp.targetWidth ≤ s.cursorState.width →
      tp.targetWidth ≤ s'.cursorState.width ∧
      s'.cursorState.width ≤ s.cursorState.width)) ∧
  ((s.cursorState.height ≤ tp.targetHeight →
      s.cursorState.height ≤ s'.cursorState.height ∧
      s'.cursorState.height ≤ tp.targetHeight) ∧
   (tp.targetHeight ≤ s.cursorState.height →
      tp.targetHeight ≤ s'.cursorState.height ∧
      s'.cursorState.height ≤ s.cursorState.height)) ∧
  ((s.cursorState.borderRadius ≤ tp.targetRadius →
      s.cursorState.borderRadius ≤ s'.cursorState.borderRadius ∧
      s'.cursorState.borderRadius ≤ tp.targetRadius) ∧
   (tp.targetRadius ≤ s.cursorState.borderRadius →
      tp.targetRadius ≤ s'.cursorState.borderRadius ∧
      s'.cursorState.borderRadius ≤ s.cursorState.borderRadius)) ∧
  (|s.mouse.x - (updateFollower s followerLag).follower.x| =
      (1 - followerLag) * |s.mouse.x - s.follower.x| ∧
   |s.mouse.y - (updateFollower s followerLag).follower.y| =
      (1 - followerLag) * |s.mouse.y - s.follower.y|) ∧
  (0 < dt → ∀ ε : ℝ, 0 < ε → ∃ N : ℕ, ∀ n, N ≤ n →
      |s.mouse.x - (followerIter s followerLag n).follower.x| ≤ ε ∧
      |s.mouse.y - (followerIter s followerLag n).follower.y| ≤ ε)

end CustomCursor

namespace CustomCursor

variable {α : Type} [LinearOrderedField α]

/-! ### Generic list lemmas for the hit tester -/

/-- `find?` returns the head of the first satisfying suffix. -/
theorem find?_first_of_split {β : Type} {p : β → Bool} :
    ∀ (l₁ : List β) (e : β) (l₂ : List β), (∀ x ∈ l₁, p x = false) → p e = true →
      (l₁ ++ e :: l₂).find? p = some e := by
  intro l₁
  induction l₁ with
  | nil => intro e l₂ _ he; simp [List.find?, he]
  | cons a t ih =>
    intro e l₂ hall he
    have ha : p a = false := hall a (List.mem_cons_self a t)
    simp only [List.cons_append, List.find?, ha]
    exact ih e l₂ (fun x hx => hall x (List.mem_cons_of_mem a hx)) he

/-- A successful `find?` splits the list at the found element, with every
earlier element failing the predicate. -/
theorem find?_split_of_eq_some {β : Type} {p : β → Bool} :
    ∀ (l : List β) (e : β), l.find? p = some e →
      p e = true ∧ ∃ l₁ l₂, l = l₁ ++ e :: l₂ ∧ ∀ x ∈ l₁, p x = false := by
  intro l
  induction l with
  | nil => intro e h; simp [List.find?] at h
  | cons a t ih =>
    intro e h
    by_cases ha : p a = true
    · simp only [List.find?, ha] at h
      obtain rfl : a = e := by injection h
      exact ⟨ha, [], t, rfl, by simp⟩
    · have ha' : p a = false := by simpa using ha
      simp only [List.find?, ha'] at h
      obtain ⟨he, l₁, l₂, rfl, hall⟩ := ih e h
      exact ⟨he, a :: l₁, l₂, rfl, by
        intro x hx
        rcases List.mem_cons.mp hx with rfl | hx
        · exact ha'
        · exact hall x hx⟩

/-! ### Projection lemmas for the tick components -/

/-- `_manageHoverState` records the hit-test result as the new previous
hovered element. -/
theorem manageHoverState_previousHovered (s : CtrlState α) (h : Option Nat) :
    (manageHoverState s h).previousHovered = h := by
  unfold manageHoverState
  split
  · simp_all
  · rfl

/-- The `isLeaving` flag after `_manageHoverState`. -/
theorem manageHoverState_isLeaving (s : CtrlState α) (h : Option Nat) :
    (manageHoverState s h).isLeaving =
      if h = s.previousHovered then s.isLeaving
      else if h.isSome then false
      else if s.previousHovered.isSome then true
      else s.isLeaving := by
  unfold manageHoverState
  split <;> simp_all

/-- `_manageHoverState` does not touch the interpolated quantities, the
pointer, or the press scale. -/
theorem manageHoverState_rest (s : CtrlState α) (h : Option Nat) :
    (manageHoverState s h).mouse = s.mouse ∧
    (manageHoverState s h).follower = s.follower ∧
    (manageHoverState s h).cursorState = s.cursorState ∧
    (manageHoverState s h).scale = s.scale ∧
    (manageHoverState s h).currentLag = s.currentLag := by
  unfold manageHoverState
  split <;> exact ⟨rfl, rfl, rfl, rfl, rfl⟩

/-- `_updateFollower` changes only the follower point. -/
theorem updateFollower_rest (s : CtrlState α) (l : α) :
    (updateFollower s l).mouse = s.mouse ∧
    (updateFollower s l).cursorState = s.cursorState ∧
    (updateFollower s l).scale = s.scale ∧
    (updateFollower s l).previousHovered = s.previousHovered ∧
    (updateFollower s l).isLeaving = s.isLeaving ∧
    (updateFollower s l).currentLag = s.currentLag := by
  exact ⟨rfl, rfl, rfl, rfl, rfl, rfl⟩

/-- The tick never writes the applied press scale. -/
theorem tick_scale (cfg : Config α) (defaults : CursorDefaults α) (s : CtrlState α)
    (items : List (TargetInfo α)) (followerLag transitionLag : α) :
    (tick cfg defaults s items followerLag transitionLag).1.scale = s.scale :=
  (manageHoverState_rest (updateFollower s followerLag)
    ((findHoveredElement defaults s.follower items).map TargetInfo.id)).2.2.2.1

/-- Closed form of the `currentLag` update performed by one tick: snap to
`transitionLag` under a hovered target, otherwise smooth at rate 0.1 toward
`transitionLag` while leaving is still in progress and `followerLag`
otherwise. -/
theorem tick_currentLag_eq (cfg : Config α) (defaults : CursorDefaults α)
    (s : CtrlState α) (items : List (TargetInfo α)) (followerLag transitionLag : α) :
    (tick cfg defaults s items followerLag transitionLag).1.currentLag =
      if (findHoveredElement defaults s.follower items).isSome then transitionLag
      else
        s.currentLag +
          ((if (s.isLeaving = true ∨ s.previousHovered.isSome = true) ∧
                ¬(|defaults.width - s.cursorState.width| < cfg.LEAVING_THRESHOLD ∧
                  |defaults.height - s.cursorState.height| < cfg.LEAVING_THRESHOLD)
              then transitionLag else followerLag) - s.currentLag) * (1 / 10) := by
  rcases hfind : findHoveredElement defaults s.follower items with _ | e
  · rcases hprev : s.previousHovered with _ | p
    · by_cases hL : s.isLeaving = true
      · by_cases hc : |defaults.width - s.cursorState.width| < cfg.LEAVING_THRESHOLD ∧
            |defaults.height - s.cursorState.height| < cfg.LEAVING_THRESHOLD
        · simp [tick, hfind, updateFollower, manageHoverState, updateCursorStyle,
            getTargetProperties, leavingAfterCheck, hprev, hL, hc]
        · simp [tick, hfind, updateFollower, manageHoverState, updateCursorStyle,
            getTargetProperties, leavingAfterCheck, hprev, hL, hc]
      · simp [tick, hfind, updateFollower, manageHoverState, updateCursorStyle,
          getTargetProperties, leavingAfterCheck, hprev, hL]
    · by_cases hc : |defaults.width - s.cursorState.width| < cfg.LEAVING_THRESHOLD ∧
          |defaults.height - s.cursorState.height| < cfg.LEAVING_THRESHOLD
      · simp [tick, hfind, updateFollower, manageHoverState, updateCursorStyle,
          getTargetProperties, leavingAfterCheck, hprev, hc]
      · simp [tick, hfind, updateFollower, manageHoverState, updateCursorStyle,
          getTargetProperties, leavingAfterCheck, hprev, hc]
  · simp [tick, hfind, updateFollower, manageHoverState, updateCursorStyle,
      getTargetProperties, leavingAfterCheck]

/-- The width, height and radius interpolations performed by
`_updateCursorStyle`, read off its result. -/
theorem updateCursorStyle_box (cfg : Config α) (defaults : CursorDefaults α)
    (s : CtrlState α) (hovered : Option (TargetInfo α)) (followerLag transitionLag : α) :
    (updateCursorStyle cfg defaults s hovered followerLag transitionLag).1.cursorState.width =
      s.cursorState.width +
        ((getTargetProperties cfg defaults s.follower hovered).1.targetWidth -
          s.cursorState.width) * transitionLag ∧
    (updateCursorStyle cfg defaults s hovered followerLag transitionLag).1.cursorState.height =
      s.cursorState.height +
        ((getTargetProperties cfg defaults s.follower hovered).1.targetHeight -
          s.cursorState.height) * transitionLag ∧
    (updateCursorStyle cfg defaults s hovered followerLag transitionLag).1.cursorState.borderRadius =
      s.cursorState.borderRadius +
        ((getTargetProperties cfg defaults s.follower hovered).1.targetRadius -
          s.cursorState.borderRadius) * transitionLag :=
  ⟨rfl, rfl, rfl⟩

/-- The same interpolations through a whole tick, with the target box taken
at the updated follower position and the pre-tick hit test. -/
theorem tick_box_interp (cfg : Config α) (defaults : CursorDefaults α)
    (s : CtrlState α) (items : List (TargetInfo α)) (followerLag transitionLag : α) :
    (tick cfg defaults s items followerLag transitionLag).1.cursorState.width =
      s.cursorState.width +
        ((getTargetProperties cfg defaults (updateFollower s followerLag).follower
            (findHoveredElement defaults s.follower items)).1.targetWidth -
          s.cursorState.width) * transitionLag ∧
    (tick cfg defaults s items followerLag transitionLag).1.cursorState.height =
      s.cursorState.height +
        ((getTargetProperties cfg defaults (updateFollower s followerLag).follower
            (findHoveredElement defaults s.follower items)).1.targetHeight -
          s.cursorState.height) * transitionLag ∧
    (tick cfg defaults s items followerLag transitionLag).1.cursorState.borderRadius =
      s.cursorState.borderRadius +
        ((getTargetProperties cfg defaults (updateFollower s followerLag).follower
            (findHoveredElement defaults s.follower items)).1.targetRadius -
          s.cursorState.borderRadius) * transitionLag := by
  have h := updateCursorStyle_box cfg defaults
    (manageHoverState (updateFollower s followerLag)
      ((findHoveredElement defaults s.follower items).map TargetInfo.id))
    (findHoveredElement defaults s.follower items) followerLag transitionLag
  have hr := manageHoverState_rest (updateFollower s followerLag)
    ((findHoveredElement defaults s.follower items).map TargetInfo.id)
  rw [hr.2.1, hr.2.2.1] at h
  exact h

/-- Exponential smoothing with a lag in `[0, 1]` lands between the current
value and the target: it neither overshoots nor retreats. -/
theorem lerp_between (v t l : α) (h0 : 0 ≤ l) (h1 : l ≤ 1) :
    (v ≤ t → v ≤ v + (t - v) * l ∧ v + (t - v) * l ≤ t) ∧
    (t ≤ v → t ≤ v + (t - v) * l ∧ v + (t - v) * l ≤ v) := by
  constructor <;> intro h <;> constructor <;> nlinarith

/-- The raw pointer is unchanged by iterated follower updates. -/
theorem followerIter_mouse (s : CtrlState α) (l : α) (n : Nat) :
    (followerIter s l n).mouse = s.mouse := by
  induction n with
  | zero => rfl
  | succ n ih =>
    rw [followerIter]
    exact ih

/-- With the pointer held fixed, each follower update scales the signed gap
to the pointer by `(1 - lag)`. -/
theorem followerIter_gap (s : CtrlState α) (l : α) (n : Nat) :
    s.mouse.x - (followerIter s l n).follower.x =
      (1 - l) ^ n * (s.mouse.x - s.follower.x) ∧
    s.mouse.y - (followerIter s l n).follower.y =
      (1 - l) ^ n * (s.mouse.y - s.follower.y) := by
  induction n with
  | zero => simp [followerIter]
  | succ n ih =>
    have hm := followerIter_mouse s l n
    constructor
    · rw [followerIter]
      simp only [updateFollower, hm]
      rw [pow_succ]
      linear_combination (1 - l) * ih.1
    · rw [followerIter]
      simp only [updateFollower, hm]
      rw [pow_succ]
      linear_combination (1 - l) * ih.2

/-! ### Claim theorems -/

/-- C1 counterexample: on a tick with no hovered target but with the
leaving flag still set (and the box far from the default box), the code
smooths `currentLag` toward `transitionLag`, not toward `followerLag` as
the claim requires for every no-hover tick: at this input the update
yields 1/25 instead of the claimed 0 + (9/10 - 0) * 0.1 = 9/100. -/
theorem C1_currentLag_hover_snap_counterexample :
    findHoveredElement cDefaults c1State.follower [] = none ∧
    c1State.isLeaving = true ∧
    (tick CONFIG cDefaults c1State [] (9 / 10) (2 / 5)).1.currentLag ≠
      c1State.currentLag + ((9 / 10 : ℚ) - c1State.currentLag) * (1 / 10) := by
  refine ⟨rfl, rfl, ?_⟩
  norm_num [tick, findHoveredElement, updateFollower, manageHoverState,
    updateCursorStyle, getTargetProperties, leavingAfterCheck, CONFIG, cDefaults,
    c1State, abs_sub_lt_iff]

/-- C1 (amended): on every tick, when a target is hovered `currentLag` is
set to `transitionLag` on that same tick; when no target is hovered,
`currentLag` moves by exponential smoothing at the fixed rate 0.1 toward a
target lag that is `transitionLag` while the leaving transition is still in
progress (`isLeaving` after the per-tick convergence check) and
`followerLag` otherwise. -/
theorem C1_currentLag_amended (cfg : Config α) (defaults : CursorDefaults α)
    (s : CtrlState α) (items : List (TargetInfo α)) (followerLag transitionLag : α) :
    (tick cfg defaults s items followerLag transitionLag).1.currentLag =
      if (findHoveredElement defaults s.follower items).isSome then transitionLag
      else
        s.currentLag +
          ((if (s.isLeaving = true ∨ s.previousHovered.isSome = true) ∧
                ¬(|defaults.width - s.cursorState.width| < cfg.LEAVING_THRESHOLD ∧
                  |defaults.height - s.cursorState.height| < cfg.LEAVING_THRESHOLD)
              then transitionLag else followerLag) - s.currentLag) * (1 / 10) :=
  tick_currentLag_eq cfg defaults s items followerLag transitionLag

/-- C2: the leaving flag after a full tick is set exactly when the hit test
found no target and either the flag was already set or a target was just
vacated and the visual box has not yet converged (its width gap and height
gap to the idle target box both below the threshold) — so it is set on the
vacating tick, persists while unconverged, clears on the tick convergence
is reached (checked every tick, independent of hover transitions), and is
cleared by entering any target; moreover a set flag always coincides with
an empty hover record, so the next entered target sets it false again. -/
theorem C2_isLeaving_lifecycle (cfg : Config α) (defaults : CursorDefaults α)
    (s : CtrlState α) (items : List (TargetInfo α)) (followerLag transitionLag : α)
    (hinv : s.isLeaving = true → s.previousHovered = none) :
    ((tick cfg defaults s items followerLag transitionLag).1.isLeaving = true ↔
      (findHoveredElement defaults s.follower items = none ∧
       (s.isLeaving = true ∨ s.previousHovered.isSome = true) ∧
       ¬(|defaults.width - s.cursorState.width| < cfg.LEAVING_THRESHOLD ∧
         |defaults.height - s.cursorState.height| < cfg.LEAVING_THRESHOLD))) ∧
    ((tick cfg defaults s items followerLag transitionLag).1.isLeaving = true →
      (tick cfg defaults s items followerLag transitionLag).1.previousHovered = none) := by
  rcases hfind : findHoveredElement defaults s.follower items with _ | e
  · rcases hprev : s.previousHovered with _ | p
    · by_cases hL : s.isLeaving = true
      · by_cases hc : |defaults.width - s.cursorState.width| < cfg.LEAVING_THRESHOLD ∧
            |defaults.height - s.cursorState.height| < cfg.LEAVING_THRESHOLD
        · simp [tick, hfind, updateFollower, manageHoverState, updateCursorStyle,
            getTargetProperties, leavingAfterCheck, hprev, hL, hc]
        · simp [tick, hfind, updateFollower, manageHoverState, updateCursorStyle,
            getTargetProperties, leavingAfterCheck, hprev, hL, hc]
      · simp [tick, hfind, updateFollower, manageHoverState, updateCursorStyle,
          getTargetProperties, leavingAfterCheck, hprev, hL]
    · by_cases hc : |defaults.width - s.cursorState.width| < cfg.LEAVING_THRESHOLD ∧
          |defaults.height - s.cursorState.height| < cfg.LEAVING_THRESHOLD
      · simp [tick, hfind, updateFollower, manageHoverState, updateCursorStyle,
          getTargetProperties, leavingAfterCheck, hprev, hc]
      · simp [tick, hfind, updateFollower, manageHoverState, updateCursorStyle,
          getTargetProperties, leavingAfterCheck, hprev, hc]
  · by_cases he : (some e.id : Option Nat) = s.previousHovered
    · have hsL : s.isLeaving = false := by
        cases hb : s.isLeaving
        · rfl
        · exact absurd (he.trans (hinv hb)) (by simp)
      simp [tick, hfind, updateFollower, manageHoverState, updateCursorStyle,
        getTargetProperties, leavingAfterCheck, he, hsL]
    · simp [tick, hfind, updateFollower, manageHoverState, updateCursorStyle,
        getTargetProperties, leavingAfterCheck, he]

/-- C2 witness: vacating target 5 with the box still far from the idle box
sets the leaving flag on that very tick. -/
theorem C2_isLeaving_lifecycle_witness :
    (tick CONFIG cDefaults c2State [] (9 / 10) (2 / 5)).1.isLeaving = true :=
  ((C2_isLeaving_lifecycle CONFIG cDefaults c2State [] (9 / 10) (2 / 5)
      (by intro h; exact absurd h (by norm_num [c2State]))).1).mpr
    ⟨rfl, Or.inr rfl, by norm_num [cDefaults, c2State, CONFIG, abs_sub_lt_iff]⟩

/-- C10: the tick step never modifies the applied press scale — the scale
written into the cursor transform each tick is the field set only by the
press handler (to the hover-state scale current at press time) and the
release handler (to 1) — while `cursorState.scale` itself is reassigned
directly every tick from the hover state, never interpolated; hence over
any run of ticks without press or release events the applied scale stays
constant. -/
theorem C10_press_scale_constant (cfg : Config α) (defaults : CursorDefaults α)
    (s : CtrlState α) (items : List (TargetInfo α)) (followerLag transitionLag : α) :
    (tick cfg defaults s items followerLag transitionLag).1.scale = s.scale ∧
    (tick cfg defaults s items followerLag transitionLag).2.transformScale = s.scale ∧
    (tick cfg defaults s items followerLag transitionLag).1.cursorState.scale =
      Option.elim (findHoveredElement defaults s.follower items) defaults.scale
        (fun e => jsOrDefault e.scaleAttr cfg.DEFAULT_HOVER_CLICK_SCALE) ∧
    handleMouseDown s = { s with scale := s.cursorState.scale } ∧
    handleMouseUp s = { s with scale := 1 } ∧
    ∀ ins : List (TickInput α), (tickSeq cfg defaults s ins).scale = s.scale := by
  refine ⟨tick_scale cfg defaults s items followerLag transitionLag, ?_, ?_, rfl, rfl, ?_⟩
  · exact (manageHoverState_rest (updateFollower s followerLag)
      ((findHoveredElement defaults s.follower items).map TargetInfo.id)).2.2.2.1
  · rcases hfind : findHoveredElement defaults s.follower items with _ | e <;>
      simp [tick, hfind, updateCursorStyle, getTargetProperties]
  · intro ins
    induction ins generalizing s with
    | nil => rfl
    | cons i rest ih =>
      rw [tickSeq, ih, tick_scale]

/-- C3: the hit tester evaluates the four-inequality overlap test between
the follower point offset by the default cursor's half-extents and each
target's live box, returns `none` exactly when no registered target
satisfies it, and otherwise returns the first satisfying target in registry
order, so ties between overlapping targets are resolved deterministically by
registration order. -/
theorem C3_hit_tester_first_match (defaults : CursorDefaults α) (follower : Point α)
    (items : List (TargetInfo α)) :
    (∀ e : TargetInfo α, hoverPred defaults follower e = true ↔
      (follower.x + defaults.width / 2 ≥ e.rect.left ∧
       follower.y + defaults.height / 2 ≥ e.rect.top ∧
       follower.x - defaults.width / 2 ≤ e.rect.right ∧
       follower.y - defaults.height / 2 ≤ e.rect.bottom)) ∧
    (findHoveredElement defaults follower items = none ↔
      ∀ e ∈ items, hoverPred defaults follower e = false) ∧
    (∀ e, findHoveredElement defaults follower items = some e →
      hoverPred defaults follower e = true ∧
      ∃ l₁ l₂, items = l₁ ++ e :: l₂ ∧ ∀ x ∈ l₁, hoverPred defaults follower x = false) ∧
    (∀ l₁ (e : TargetInfo α) l₂, items = l₁ ++ e :: l₂ →
      (∀ x ∈ l₁, hoverPred defaults follower x = false) →
      hoverPred defaults follower e = true →
      findHoveredElement defaults follower items = some e) := by
  refine ⟨?_, ?_, ?_, ?_⟩
  · intro e
    simp [hoverPred]
  · constructor
    · intro h e he
      have := List.find?_eq_none.mp h e he
      simpa using this
    · intro h
      exact List.find?_eq_none.mpr (fun e he => by simp [h e he])
  · intro e h
    exact find?_split_of_eq_some items e h
  · intro l₁ e l₂ hsplit hall he
    rw [findHoveredElement, hsplit]
    exact find?_first_of_split l₁ e l₂ hall he

/-- C3 witness: with two overlapping registered targets both satisfying the
overlap test for the same follower point, the earlier-registered one is
returned. -/
theorem C3_hit_tester_first_match_witness :
    findHoveredElement cDefaults (⟨0, 0⟩ : Point ℚ) [cTarget, cTarget2] = some cTarget ∧
    hoverPred cDefaults (⟨0, 0⟩ : Point ℚ) cTarget2 = true := by
  have h1 : hoverPred cDefaults (⟨0, 0⟩ : Point ℚ) cTarget = true := by
    norm_num [hoverPred, cDefaults, cTarget, Rect.right, Rect.bottom]
  have h2 : hoverPred cDefaults (⟨0, 0⟩ : Point ℚ) cTarget2 = true := by
    norm_num [hoverPred, cDefaults, cTarget2, Rect.right, Rect.bottom]
  exact ⟨(C3_hit_tester_first_match cDefaults ⟨0, 0⟩ [cTarget, cTarget2]).2.2.2
      [] cTarget [cTarget2] rfl (by simp) h1, h2⟩

/-- C6: the border-radius resolver returns 0 on an unparsable computed
radius; returns the smaller of the element's two dimensions whenever the
parsed radius meets or exceeds it or the element carries the `rounded-full`
marker class; returns the parsed radius otherwise; and in particular maps a
40×20 element with radius `9999px` to 20 and radius `abc` to 0. -/
theorem C6_border_radius_resolver (radiusStr : String) (w h : Int) (rounded : Bool) :
    (jsParseInt radiusStr = none → getBorderRadius radiusStr w h rounded = 0) ∧
    (∀ r : Int, jsParseInt radiusStr = some r →
      ((min w h ≤ r ∨ rounded = true) → getBorderRadius radiusStr w h rounded = min w h) ∧
      (r < min w h → rounded = false → getBorderRadius radiusStr w h rounded = r)) ∧
    getBorderRadius "9999px" 40 20 false = 20 ∧
    getBorderRadius "abc" 40 20 false = 0 := by
  refine ⟨?_, ?_, by decide, by decide⟩
  · intro hn
    simp [getBorderRadius, hn]
  · intro r hr
    constructor
    · intro hmin
      simp only [getBorderRadius, hr]
      rcases hmin with hle | hT
      · rcases lt_or_eq_of_le hle with hlt | heq
        · rw [if_pos (Or.inl hlt)]
        · split
          · rfl
          · omega
      · rw [if_pos (Or.inr hT)]
    · intro hlt hF
      simp only [getBorderRadius, hr]
      rw [if_neg]
      rintro (h1 | h2)
      · omega
      · rw [hF] at h2
        exact Bool.false_ne_true h2

/-- C6 witness: the resolver evaluated through the theorem on the
unparsable radius string `abc`. -/
theorem C6_border_radius_resolver_witness :
    jsParseInt "abc" = none ∧ getBorderRadius "abc" 40 20 false = 0 :=
  ⟨by decide, (C6_border_radius_resolver "abc" 40 20 false).1 (by decide)⟩

/-- C7: on any tick, the hovered target with positive configured parallax
strength receives the translation `(relX * S, relY * S)` built from the
pointer's fractional offset from the target's own box, which is `(0, 0)`
when the pointer sits exactly at the target's center; every other target —
not hovered, or with strength at most 0 — is written a zero translation. -/
theorem C7_parallax_translation (mouse : Point α) (e : TargetInfo α)
    (hovered : Option Nat) :
    (hovered = some e.id → 0 < jsOrDefault e.parallax 0 →
      parallaxTranslation mouse hovered e =
        (((mouse.x - e.rect.left) / e.rect.width - 1 / 2) * jsOrDefault e.parallax 0,
         ((mouse.y - e.rect.top) / e.rect.height - 1 / 2) * jsOrDefault e.parallax 0)) ∧
    (hovered = some e.id → 0 < jsOrDefault e.parallax 0 →
      e.rect.width ≠ 0 → e.rect.height ≠ 0 →
      mouse.x = e.rect.left + e.rect.width / 2 →
      mouse.y = e.rect.top + e.rect.height / 2 →
      parallaxTranslation mouse hovered e = (0, 0)) ∧
    (hovered ≠ some e.id → parallaxTranslation mouse hovered e = (0, 0)) ∧
    (jsOrDefault e.parallax 0 ≤ 0 → parallaxTranslation mouse hovered e = (0, 0)) := by
  refine ⟨?_, ?_, ?_, ?_⟩
  · intro hh hp
    rw [parallaxTranslation, if_pos ⟨hp, hh⟩]
  · intro hh hp hw hhh hx hy
    rw [parallaxTranslation, if_pos ⟨hp, hh⟩]
    have hx0 : (mouse.x - e.rect.left) / e.rect.width - 1 / 2 = 0 := by
      rw [hx]
      field_simp
      ring
    have hy0 : (mouse.y - e.rect.top) / e.rect.height - 1 / 2 = 0 := by
      rw [hy]
      field_simp
      ring
    simp only [Prod.mk.injEq]
    exact ⟨by rw [hx0, zero_mul], by rw [hy0, zero_mul]⟩
  · intro hh
    rw [parallaxTranslation, if_neg (fun hc => hh hc.2)]
  · intro hp
    rw [parallaxTranslation, if_neg (fun hc => absurd hc.1 (not_lt.mpr hp))]

/-- C7 witness: the hovered concrete target with strength 2 and the pointer
at its center receives translation `(0, 0)`. -/
theorem C7_parallax_translation_witness :
    parallaxTranslation (⟨0, 0⟩ : Point ℚ) (some 0) cTarget = (0, 0) :=
  (C7_parallax_translation ⟨0, 0⟩ cTarget (some 0)).2.1 rfl
    (by norm_num [cTarget, jsOrDefault]) (by norm_num [cTarget])
    (by norm_num [cTarget]) (by norm_num [cTarget]) (by norm_num [cTarget])

/-- C8: when the cursor element is missing or the runtime is touch-capable,
construction emits exactly one advisory diagnostic, initializes no
controller state, attaches no listeners and starts no loop; otherwise it
completes initialization with no diagnostic. -/
theorem C8_constructor_gating (cfg : Config α) (cursorFound touchCapable : Bool)
    (iw ih : α) (cw ch : Int) (rs : String) (rf : Bool) :
    (cursorFound = false ∨ touchCapable = true →
      constructorModel cfg cursorFound touchCapable iw ih cw ch rs rf =
        ⟨1, none, false, false⟩) ∧
    (cursorFound = true → touchCapable = false →
      constructorModel cfg cursorFound touchCapable iw ih cw ch rs rf =
        ⟨0, some (initState iw ih
            ⟨(cw : α), (ch : α), ((getBorderRadius rs cw ch rf : Int) : α),
             cfg.DEFAULT_CLICK_SCALE⟩), true, true⟩) := by
  constructor
  · rintro (hc | ht)
    · simp [constructorModel, hc]
    · simp [constructorModel, ht]
  · intro hc ht
    simp [constructorModel, hc, ht]

/-- C8 witness: a missing cursor element at concrete inputs yields the
warn-only outcome. -/
theorem C8_constructor_gating_witness :
    constructorModel CONFIG false false (800 : ℚ) 600 30 30 "15px" false =
      ⟨1, none, false, false⟩ :=
  (C8_constructor_gating CONFIG false false 800 600 30 30 "15px" false).1 (Or.inl rfl)

/-- C9: a padding, press-scale or parallax data attribute whose value
parses to the number 0 is treated exactly like an absent attribute by the
`Number(attr) || default` fallback: explicit zero padding yields the
default padding 15, explicit zero press-scale yields the default hover
press-scale 0.98, and explicit zero parallax produces the zero translation
of an unconfigured target. -/
theorem C9_zero_attribute_falls_back (e : TargetInfo ℚ) (defaults : CursorDefaults ℚ)
    (follower : Point ℚ) (mouse : Point ℚ)
    (hp : e.padding = some 0) (hs : e.scaleAttr = some 0) (hx : e.parallax = some 0) :
    (getTargetProperties CONFIG defaults follower (some e)).1.targetWidth =
      e.rect.width + 15 ∧
    (getTargetProperties CONFIG defaults follower (some e)).1.targetHeight =
      e.rect.height + 15 ∧
    (getTargetProperties CONFIG defaults follower (some e)).2 = 49 / 50 ∧
    (∀ hovered : Option Nat, parallaxTranslation mouse hovered e = (0, 0)) ∧
    (∀ d : ℚ, jsOrDefault e.padding d = d) := by
  refine ⟨?_, ?_, ?_, ?_, ?_⟩
  · simp [getTargetProperties, jsOrDefault, hp, CONFIG]
  · simp [getTargetProperties, jsOrDefault, hp, CONFIG]
  · simp [getTargetProperties, jsOrDefault, hs, CONFIG]
  · intro hovered
    rw [parallaxTranslation, if_neg]
    rintro ⟨h0, -⟩
    rw [hx] at h0
    simp [jsOrDefault] at h0
  · intro d
    rw [hp]
    simp [jsOrDefault]

/-- C9 witness: the concrete target carrying explicit `0` padding and
press-scale attributes gets the default padding and hover press-scale. -/
theorem C9_zero_attribute_falls_back_witness :
    (getTargetProperties CONFIG cDefaults (⟨0, 0⟩ : Point ℚ) (some cTarget2)).1.targetWidth =
      cTarget2.rect.width + 15 ∧
    (getTargetProperties CONFIG cDefaults (⟨0, 0⟩ : Point ℚ) (some cTarget2)).2 = 49 / 50 ∧
    parallaxTranslation (⟨0, 0⟩ : Point ℚ) (some cTarget2.id) cTarget2 = (0, 0) := by
  have h := C9_zero_attribute_falls_back cTarget2 cDefaults ⟨0, 0⟩ ⟨0, 0⟩
    (by decide) (by decide) (by decide)
  exact ⟨h.1, h.2.2.1, h.2.2.2.1 (some cTarget2.id)⟩

/-- Writing an inline z-index only touches the written element; the empty
string removes the inline value. -/
theorem writeZ_inline (zs : ZState) (t : Nat) (v : String) (u : Nat) :
    (writeZ zs t v).inlineZ u =
      if u = t then (if v = "" then none else some v) else zs.inlineZ u := rfl

/-- `pairEvents` distributes over concatenation. -/
theorem pairEvents_append (ps qs : List (Nat × String)) :
    pairEvents (ps ++ qs) = pairEvents ps ++ pairEvents qs := by
  induction ps with
  | nil => rfl
  | cons pv ps ih =>
    rcases pv with ⟨t, v⟩
    simp [pairEvents, ih]

/-- One z-order step preserves well-formedness and extends the event list
by complete pairs, leaving open only the active target's elevation. -/
theorem zHoverStep_wf (env : ZEnv) (c : Nat → String) (hc : ∀ t, c t ≠ "")
    (zs : ZState) (h : Option Nat) (hwf : ZWF env c zs) :
    ZWF env c (zHoverStep env zs h).1 ∧
    ∃ ps : List (Nat × String), (∀ pv ∈ ps, pv.2 = c pv.1) ∧
      openEv c zs.previousHovered ++ (zHoverStep env zs h).2 =
        pairEvents ps ++ openEv c (zHoverStep env zs h).1.previousHovered := by
  by_cases hEq : h = zs.previousHovered
  · simp only [zHoverStep]
    rw [if_pos hEq]
    exact ⟨hwf, [], by simp, by simp [pairEvents, hEq]⟩
  · rcases hp : zs.previousHovered with _ | p
    · rcases h with _ | hh
      · exact absurd hp.symm hEq
      · have hcap : ZEnv.computed env zs hh = c hh :=
          ((hwf hh).2 (by rw [hp]; simp)).1
        simp only [zHoverStep, manageZIndex, hp]
        rw [if_neg (by simp)]
        constructor
        · intro t
          constructor
          · intro ht
            obtain rfl : hh = t := by injection ht
            exact hcap
          · intro ht
            have htt : t ≠ hh := fun hx => ht (by rw [hx])
            have h2 := (hwf t).2 (by rw [hp]; simp)
            refine ⟨?_, ?_⟩
            · show ((writeZ zs hh (toString (env.cursorZ + 1))).inlineZ t).getD
                (env.base t) = c t
              rw [writeZ_inline, if_neg htt]
              exact h2.1
            · show (writeZ zs hh (toString (env.cursorZ + 1))).inlineZ t ≠ some ""
              rw [writeZ_inline, if_neg htt]
              exact h2.2
        · exact ⟨[], by simp, by simp [openEv, pairEvents, hcap]⟩
    · have hpz : zs.previousHoveredZIndex = c p := (hwf p).1 hp
      have hcp : c p ≠ "" := hc p
      rcases h with _ | hh
      · simp only [zHoverStep, manageZIndex, hp]
        rw [if_neg (by simp)]
        constructor
        · intro t
          constructor
          · intro ht
            exact absurd ht (by simp)
          · intro ht
            by_cases htp : t = p
            · subst htp
              refine ⟨?_, ?_⟩
              · show ((writeZ zs t zs.previousHoveredZIndex).inlineZ t).getD
                  (env.base t) = c t
                rw [writeZ_inline, if_pos rfl, hpz, if_neg hcp]
                simp
              · show (writeZ zs t zs.previousHoveredZIndex).inlineZ t ≠ some ""
                rw [writeZ_inline, if_pos rfl, hpz, if_neg hcp]
                simp [hcp]
            · have h2 := (hwf t).2
                (by rw [hp]; intro hx; exact htp (Option.some.inj hx).symm)
              refine ⟨?_, ?_⟩
              · show ((writeZ zs p zs.previousHoveredZIndex).inlineZ t).getD
                  (env.base t) = c t
                rw [writeZ_inline, if_neg htp]
                exact h2.1
              · show (writeZ zs p zs.previousHoveredZIndex).inlineZ t ≠ some ""
                rw [writeZ_inline, if_neg htp]
                exact h2.2
        · exact ⟨[(p, c p)], by simp, by simp [openEv, pairEvents, hpz]⟩
      · have hhp : hh ≠ p := fun hx => hEq (by rw [hp, hx])
        have hcap : ZEnv.computed env (writeZ zs p zs.previousHoveredZIndex) hh = c hh := by
          show ((writeZ zs p zs.previousHoveredZIndex).inlineZ hh).getD (env.base hh) = c hh
          rw [writeZ_inline, if_neg hhp]
          exact ((hwf hh).2
            (by rw [hp]; intro hx; exact hhp (Option.some.inj hx).symm)).1
        have hcap2 : ZEnv.computed env (writeZ zs p (c p)) hh = c hh := by
          show ((writeZ zs p (c p)).inlineZ hh).getD (env.base hh) = c hh
          rw [writeZ_inline, if_neg hhp]
          exact ((hwf hh).2
            (by rw [hp]; intro hx; exact hhp (Option.some.inj hx).symm)).1
        simp only [zHoverStep, manageZIndex, hp]
        rw [if_neg (by simp [hhp])]
        constructor
        · intro t
          constructor
          · intro ht
            obtain rfl : hh = t := by injection ht
            exact hcap
          · intro ht
            have htt : t ≠ hh := fun hx => ht (by rw [hx])
            by_cases htp : t = p
            · subst htp
              refine ⟨?_, ?_⟩
              · show ((writeZ (writeZ zs t zs.previousHoveredZIndex) hh
                    (toString (env.cursorZ + 1))).inlineZ t).getD (env.base t) = c t
                rw [writeZ_inline, if_neg htt, writeZ_inline, if_pos rfl, hpz,
                  if_neg hcp]
                simp
              · show (writeZ (writeZ zs t zs.previousHoveredZIndex) hh
                    (toString (env.cursorZ + 1))).inlineZ t ≠ some ""
                rw [writeZ_inline, if_neg htt, writeZ_inline, if_pos rfl, hpz,
                  if_neg hcp]
                simp [hcp]
            · have h2 := (hwf t).2
                (by rw [hp]; intro hx; exact htp (Option.some.inj hx).symm)
              refine ⟨?_, ?_⟩
              · show ((writeZ (writeZ zs p zs.previousHoveredZIndex) hh
                    (toString (env.cursorZ + 1))).inlineZ t).getD (env.base t) = c t
                rw [writeZ_inline, if_neg htt, writeZ_inline, if_neg htp]
                exact h2.1
              · show (writeZ (writeZ zs p zs.previousHoveredZIndex) hh
                    (toString (env.cursorZ + 1))).inlineZ t ≠ some ""
                rw [writeZ_inline, if_neg htt, writeZ_inline, if_neg htp]
                exact h2.2
        · exact ⟨[(p, c p)], by simp, by simp [openEv, pairEvents, hpz, hcap, hcap2]⟩

/-- Running the z-order logic over any trace preserves well-formedness and
produces an event list of complete elevation/restoration pairs followed by
at most the still-open elevation of the final active target. -/
theorem zRun_pairs (env : ZEnv) (c : Nat → String) (hc : ∀ t, c t ≠ "") :
    ∀ (ins : List (Option Nat)) (zs : ZState), ZWF env c zs →
      ZWF env c (zRun env zs ins).1 ∧
      ∃ ps : List (Nat × String), (∀ pv ∈ ps, pv.2 = c pv.1) ∧
        openEv c zs.previousHovered ++ (zRun env zs ins).2 =
          pairEvents ps ++ openEv c (zRun env zs ins).1.previousHovered := by
  intro ins
  induction ins with
  | nil =>
    intro zs hwf
    exact ⟨hwf, [], by simp, by simp [zRun, pairEvents]⟩
  | cons h rest ih =>
    intro zs hwf
    obtain ⟨hwf1, ps1, hps1, hev1⟩ := zHoverStep_wf env c hc zs h hwf
    obtain ⟨hwf2, ps2, hps2, hev2⟩ := ih (zHoverStep env zs h).1 hwf1
    refine ⟨by simpa only [zRun] using hwf2, ps1 ++ ps2, ?_, ?_⟩
    · intro pv hpv
      rcases List.mem_append.mp hpv with h1 | h2
      · exact hps1 pv h1
      · exact hps2 pv h2
    · simp only [zRun]
      rw [pairEvents_append, ← List.append_assoc, hev1, List.append_assoc, hev2,
        ← List.append_assoc]

/-- C5: over any trace of hover transitions processed from an idle start
and ending idle, the z-order side effects form matched pairs — each
elevation of a target is followed by exactly one restoration writing back
the z-order captured at elevation time — and every element's computed
z-order ends at its original value, so no target retains an elevated
z-order after it stops being the active target. -/
theorem C5_zindex_matched_pairs (env : ZEnv) (zs : ZState) (ins : List (Option Nat))
    (hbase : ∀ t, env.base t ≠ "")
    (hinl : ∀ t, zs.inlineZ t ≠ some "")
    (hprev : zs.previousHovered = none)
    (hlast : (zRun env zs ins).1.previousHovered = none) :
    (∃ ps : List (Nat × String),
      (∀ pv ∈ ps, pv.2 = ZEnv.computed env zs pv.1) ∧
      (zRun env zs ins).2 = pairEvents ps) ∧
    ∀ t, ZEnv.computed env (zRun env zs ins).1 t = ZEnv.computed env zs t := by
  have hc : ∀ t, ZEnv.computed env zs t ≠ "" := by
    intro t
    show (zs.inlineZ t).getD (env.base t) ≠ ""
    cases hz : zs.inlineZ t
    · simpa using hbase t
    · intro hcontra
      rw [Option.getD_some] at hcontra
      exact hinl t (hcontra ▸ hz)
  have hwf0 : ZWF env (ZEnv.computed env zs) zs := by
    intro t
    constructor
    · intro ht
      rw [hprev] at ht
      exact absurd ht (by simp)
    · intro _
      exact ⟨rfl, hinl t⟩
  obtain ⟨hwf, ps, hps, hev⟩ := zRun_pairs env (ZEnv.computed env zs) hc ins zs hwf0
  refine ⟨⟨ps, hps, ?_⟩, ?_⟩
  · rw [hprev, hlast] at hev
    simpa [openEv] using hev
  · intro t
    exact ((hwf t).2 (by rw [hlast]; simp)).1

/-- C5 witness: a concrete hover trace over two targets ending idle, with
stylesheet z-order `auto` everywhere and cursor z-order 10, produces an
event list of matched pairs and restores every computed z-order. -/
theorem C5_zindex_matched_pairs_witness :
    (∃ ps : List (Nat × String),
      (∀ pv ∈ ps, pv.2 = ZEnv.computed ⟨fun _ => "auto", 10⟩
        ⟨fun _ => none, none, ""⟩ pv.1) ∧
      (zRun ⟨fun _ => "auto", 10⟩ ⟨fun _ => none, none, ""⟩
        [some 0, some 1, none]).2 = pairEvents ps) ∧
    ∀ t, ZEnv.computed ⟨fun _ => "auto", 10⟩
        (zRun ⟨fun _ => "auto", 10⟩ ⟨fun _ => none, none, ""⟩
          [some 0, some 1, none]).1 t
      = ZEnv.computed ⟨fun _ => "auto", 10⟩ ⟨fun _ => none, none, ""⟩ t :=
  C5_zindex_matched_pairs ⟨fun _ => "auto", 10⟩ ⟨fun _ => none, none, ""⟩
    [some 0, some 1, none] (fun t => by simp) (fun t => by simp) rfl rfl

/-- C4: with the lags computed as `1 - exp(-speed * dt)` for a nonnegative
frame delta (follower speed 138, transition speed 31) and the previous
current lag inside `[0, 1]`, every per-tick computed lag lies in `[0, 1]`;
the visual box's width, height and border radius each move monotonically
toward, and never past or away from, the currently selected target value;
and with the raw pointer held constant the follower's distance to it
shrinks by the factor `(1 - followerLag)` each tick and converges within
any positive epsilon after sufficiently many ticks. -/
theorem C4_lags_monotone_convergence (cfg : Config ℝ) (defaults : CursorDefaults ℝ)
    (s : CtrlState ℝ) (items : List (TargetInfo ℝ)) (dt followerLag transitionLag : ℝ)
    (hdt : 0 ≤ dt)
    (hfl : followerLag = 1 - Real.exp (-(138 * dt)))
    (htl : transitionLag = 1 - Real.exp (-(31 * dt)))
    (hcl0 : 0 ≤ s.currentLag) (hcl1 : s.currentLag ≤ 1) :
    C4Prop cfg defaults s items dt followerLag transitionLag := by
  have hf0 : 0 ≤ followerLag := by
    rw [hfl]
    have h1 : Real.exp (-(138 * dt)) ≤ 1 := Real.exp_le_one_iff.mpr (by nlinarith)
    linarith
  have hf1 : followerLag ≤ 1 := by
    rw [hfl]
    have := Real.exp_pos (-(138 * dt))
    linarith
  have ht0 : 0 ≤ transitionLag := by
    rw [htl]
    have h1 : Real.exp (-(31 * dt)) ≤ 1 := Real.exp_le_one_iff.mpr (by nlinarith)
    linarith
  have ht1 : transitionLag ≤ 1 := by
    rw [htl]
    have := Real.exp_pos (-(31 * dt))
    linarith
  have hcb : 0 ≤ (tick cfg defaults s items followerLag transitionLag).1.currentLag ∧
      (tick cfg defaults s items followerLag transitionLag).1.currentLag ≤ 1 := by
    rw [tick_currentLag_eq]
    split_ifs with h1 h2
    · exact ⟨ht0, ht1⟩
    · constructor <;> nlinarith
    · constructor <;> nlinarith
  have hbox := tick_box_interp cfg defaults s items followerLag transitionLag
  have hgapx : s.mouse.x - (updateFollower s followerLag).follower.x =
      (1 - followerLag) * (s.mouse.x - s.follower.x) := by
    show s.mouse.x - (s.follower.x + (s.mouse.x - s.follower.x) * followerLag) = _
    ring
  have hgapy : s.mouse.y - (updateFollower s followerLag).follower.y =
      (1 - followerLag) * (s.mouse.y - s.follower.y) := by
    show s.mouse.y - (s.follower.y + (s.mouse.y - s.follower.y) * followerLag) = _
    ring
  simp only [C4Prop]
  refine ⟨⟨hf0, hf1⟩, ⟨ht0, ht1⟩, hcb, ?_, ?_, ?_, ⟨?_, ?_⟩, ?_⟩
  · rw [hbox.1]
    exact lerp_between _ _ _ ht0 ht1
  · rw [hbox.2.1]
    exact lerp_between _ _ _ ht0 ht1
  · rw [hbox.2.2]
    exact lerp_between _ _ _ ht0 ht1
  · rw [hgapx, abs_mul, abs_of_nonneg (by linarith : (0 : ℝ) ≤ 1 - followerLag)]
  · rw [hgapy, abs_mul, abs_of_nonneg (by linarith : (0 : ℝ) ≤ 1 - followerLag)]
  · intro hdtpos ε hε
    have hr0 : 0 < Real.exp (-(138 * dt)) := Real.exp_pos _
    have hr1 : Real.exp (-(138 * dt)) < 1 := Real.exp_lt_one_iff.mpr (by nlinarith)
    have h1l : 1 - followerLag = Real.exp (-(138 * dt)) := by
      rw [hfl]
      ring
    have hDx : 0 ≤ |s.mouse.x - s.follower.x| := abs_nonneg _
    have hDy : 0 ≤ |s.mouse.y - s.follower.y| := abs_nonneg _
    have hD1 : 0 < |s.mouse.x - s.follower.x| + |s.mouse.y - s.follower.y| + 1 := by
      linarith
    obtain ⟨N, hN⟩ := exists_pow_lt_of_lt_one (div_pos hε hD1) hr1
    refine ⟨N, fun n hn => ?_⟩
    have hpow : Real.exp (-(138 * dt)) ^ n ≤ Real.exp (-(138 * dt)) ^ N :=
      pow_le_pow_of_le_one hr0.le hr1.le hn
    have habsx : |s.mouse.x - (followerIter s followerLag n).follower.x| =
        Real.exp (-(138 * dt)) ^ n * |s.mouse.x - s.follower.x| := by
      rw [(followerIter_gap s followerLag n).1, h1l, abs_mul, abs_pow,
        abs_of_pos hr0]
    have habsy : |s.mouse.y - (followerIter s followerLag n).follower.y| =
        Real.exp (-(138 * dt)) ^ n * |s.mouse.y - s.follower.y| := by
      rw [(followerIter_gap s followerLag n).2, h1l, abs_mul, abs_pow,
        abs_of_pos hr0]
    have hkey : ∀ d : ℝ, 0 ≤ d →
        d ≤ |s.mouse.x - s.follower.x| + |s.mouse.y - s.follower.y| →
        Real.exp (-(138 * dt)) ^ n * d ≤ ε := by
      intro d hd0 hdD
      have h1 : Real.exp (-(138 * dt)) ^ n * d ≤ Real.exp (-(138 * dt)) ^ N * d :=
        mul_le_mul_of_nonneg_right hpow hd0
      have h2 : Real.exp (-(138 * dt)) ^ N * d ≤
          (ε / (|s.mouse.x - s.follower.x| + |s.mouse.y - s.follower.y| + 1)) * d :=
        mul_le_mul_of_nonneg_right hN.le hd0
      have h3 : (ε / (|s.mouse.x - s.follower.x| + |s.mouse.y - s.follower.y| + 1)) * d ≤
          (ε / (|s.mouse.x - s.follower.x| + |s.mouse.y - s.follower.y| + 1)) *
            (|s.mouse.x - s.follower.x| + |s.mouse.y - s.follower.y| + 1) :=
        mul_le_mul_of_nonneg_left (by linarith) (le_of_lt (div_pos hε hD1))
      have h4 : (ε / (|s.mouse.x - s.follower.x| + |s.mouse.y - s.follower.y| + 1)) *
          (|s.mouse.x - s.follower.x| + |s.mouse.y - s.follower.y| + 1) = ε :=
        div_mul_cancel₀ ε (ne_of_gt hD1)
      linarith
    constructor
    · rw [habsx]
      exact hkey _ hDx (by linarith)
    · rw [habsy]
      exact hkey _ hDy (by linarith)

/-- C4 witness: the property instantiated at the frame delta `dt = 1` with
the lags computed from it, on a freshly initialized controller. -/
theorem C4_lags_monotone_convergence_witness :
    C4Prop ⟨15, 9 / 10, 49 / 50, 138, 31, 1 / 2⟩ ⟨30, 30, 15, 9 / 10⟩
      (initState 800 600 ⟨30, 30, 15, 9 / 10⟩) [] 1
      (1 - Real.exp (-(138 * 1))) (1 - Real.exp (-(31 * 1))) :=
  C4_lags_monotone_convergence _ _ _ _ _ _ _ (by norm_num) rfl rfl
    (by norm_num [initState]) (by norm_num [initState])

end CustomCursor
